import Mathlib

/-!
Shallow embedding of `src/lib/generate_split_receipt_pdf.py`.

The Python module builds an in-memory list of layout blocks (paragraphs,
spacers, tables) from two receipt dicts, two item lists and the current
wall-clock time, then hands the list to reportlab to render a PDF at
`output_path` and returns `output_path`.

Modelling decisions:
* Python dicts with `dict.get(key, default)` access become structures with
  `Option`-typed fields read through `Option.getD`.
* The block sequence (`story` in the source) is modelled as `List Block`.
  Purely visual data that no claim mentions (column widths, colors, fonts,
  paddings) is compressed into a style-name tag on each block; spacer heights
  are kept in hundredths of an inch.  The text content of every block is kept
  verbatim.
* `datetime.now().strftime(...)` is modelled by passing the formatted
  timestamp string `nowStr` as an explicit parameter.
* Python float division `cents / 100` followed by `"{:.2f}"` formatting is
  modelled by exact integer formatting (`fmt2`): for an integer `n`, the exact
  value `n / 100` has at most two decimal digits, so rounding it to two
  decimals reproduces those digits exactly; the binary64 detour of the source
  changes nothing for every magnitude a receipt amount can take (the nearest
  double to `n / 100` stays well inside the half-cent rounding interval for
  `|n| < 2 ^ 45`).  Negative amounts format sign-magnitude, as Python does.
* `doc.build(story)` and `print(...)` are I/O; the claims are about the
  content handed to the renderer and the return value, so
  `generate_split_receipt_pdf` returns the story together with the echoed
  path.
-/

/-- A receipt record dict: `{id, vendor, receipt_date, total_cents,
purpose_text, suggested_category?}`.  Every field is optional because the
source only ever reads them with `dict.get`. -/
structure ReceiptRecord where
  id : Option String := none
  vendor : Option String := none
  receipt_date : Option String := none
  total_cents : Option Int := none
  purpose_text : Option String := none
  suggested_category : Option String := none
  deriving DecidableEq, Repr

/-- A line-item dict: `{description, quantity, unit_price_cents, total_cents}`,
each read with `dict.get` and a default in the source. -/
structure LineItem where
  description : Option String := none
  quantity : Option Int := none
  unit_price_cents : Option Int := none
  total_cents : Option Int := none
  deriving DecidableEq, Repr

/-- One flowable appended to the reportlab `story`: a paragraph with a style
tag, a spacer (height in hundredths of an inch), or a table of string cells
with a style tag. -/
inductive Block where
  | paragraph (text : String) (style : String)
  | spacer (height : Nat)
  | table (rows : List (List String)) (style : String)
  deriving DecidableEq, Repr

/-- Two-digit zero-padded rendering of `k < 100`, the fractional part of
Python `f-string` `:.2f` output. -/
def pad2 (k : Nat) : String :=
  if k < 10 then "0" ++ toString k else toString k

/-- Exact rendering of the Python expression `f"{(n / 100):.2f}"` for an
integer `n` of cents: optional sign, integer part, a dot, two fraction
digits. -/
def fmt2 (n : Int) : String :=
  (if n < 0 then "-" else "") ++ toString (n.natAbs / 100) ++ "." ++ pad2 (n.natAbs % 100)

/-- `f"${(n / 100):.2f}"`: the dollar-prefixed currency string. -/
def money (n : Int) : String := "$" ++ fmt2 n

/-- Python substring containment `needle in hay` on strings
(case-sensitive). -/
def strContainsSub (hay needle : String) : Bool :=
  decide (needle.toList <:+: hay.toList)

/-- Line 141: `category = new_receipt.get('suggested_category', 'Other Expenses')`. -/
def categoryOf (new_receipt : ReceiptRecord) : String :=
  new_receipt.suggested_category.getD "Other Expenses"

/-- Line 142: `deductible = "50%" if "Meal" in category else "100%"`. -/
def deductibleOf (category : String) : String :=
  if strContainsSub category "Meal" then "50%" else "100%"

/-- Lines 80-85: the `original_data` key/value table of the
"ORIGINAL RECEIPT" section. -/
def originalInfoTable (original_receipt : ReceiptRecord) : List (List String) :=
  [["Vendor:", original_receipt.vendor.getD "Unknown"],
   ["Date:", original_receipt.receipt_date.getD "Not specified"],
   ["Original Total:", money (original_receipt.total_cents.getD 0) ++ " CAD"],
   ["Receipt ID:", (original_receipt.id.getD "").take 8 ++ "..."]]

/-- Lines 112-118 / 150-156: one row of an item table. -/
def itemRow (item : LineItem) : List String :=
  [item.description.getD "",
   toString (item.quantity.getD 1),
   money (item.unit_price_cents.getD 0),
   money (item.total_cents.getD 0)]

/-- Lines 110-131 / 148-169: the item table is emitted only when the item
list is truthy, i.e. non-empty; it always carries the fixed header row. -/
def itemsTableBlocks (items : List LineItem) (styleName : String) : List Block :=
  if items.isEmpty then []
  else [Block.table (["Description", "Qty", "Unit Price", "Total"] :: items.map itemRow) styleName]

/-- Lines 105-138: the Receipt A subsection (fixed label, optional item
table, bold total from `original_receipt`, fixed tax-treatment note). -/
def receiptASection (original_receipt : ReceiptRecord) (original_items : List LineItem) :
    List Block :=
  [Block.paragraph "<b>Receipt A: Office Supplies (100% Deductible)</b>" "body",
   Block.spacer 10]
  ++ itemsTableBlocks original_items "itemsA"
  ++ [Block.spacer 10,
      Block.paragraph
        ("<b>Receipt A Total: " ++ money (original_receipt.total_cents.getD 0) ++ " CAD</b>")
        "body",
      Block.paragraph "Tax Treatment: 100% deductible business expense" "body",
      Block.spacer 25]

/-- Lines 140-175: the Receipt B subsection (dynamic label from the
defaulted category and the deductibility rule, optional item table, bold
total from `new_receipt`, dynamic tax-treatment note). -/
def receiptBSection (new_receipt : ReceiptRecord) (new_items : List LineItem) : List Block :=
  [Block.paragraph
     ("<b>Receipt B: " ++ categoryOf new_receipt ++ " (" ++
      deductibleOf (categoryOf new_receipt) ++ " Deductible)</b>")
     "body",
   Block.spacer 10]
  ++ itemsTableBlocks new_items "itemsB"
  ++ [Block.spacer 10,
      Block.paragraph
        ("<b>Receipt B Total: " ++ money (new_receipt.total_cents.getD 0) ++ " CAD</b>")
        "body",
      Block.paragraph
        ("Tax Treatment: " ++ deductibleOf (categoryOf new_receipt) ++ " deductible (" ++
         categoryOf new_receipt ++ ")")
        "body",
      Block.spacer 30]

/-- Lines 180-194: the `summary_data` table of the "SUMMARY" section. -/
def summary_data (original_receipt new_receipt : ReceiptRecord) : List (List String) :=
  [["", "Receipt A", "Receipt B", "Total"],
   ["Subtotal + Tax",
    money (original_receipt.total_cents.getD 0),
    money (new_receipt.total_cents.getD 0),
    money (original_receipt.total_cents.getD 0 + new_receipt.total_cents.getD 0)],
   ["Tax Category", "Office Supplies", categoryOf new_receipt, "—"],
   ["Deductibility", "100%", deductibleOf (categoryOf new_receipt), "—"]]

/-- Lines 67-74: the static purpose paragraph. -/
def purpose_text : String :=
  "\n    <para alignment=\"center\" spaceBefore=\"12\" spaceAfter=\"12\">\n    <b>Purpose:</b> This document certifies that a single receipt was split into two separate \n    expense entries for proper tax categorization as required by CRA guidelines.\n    </para>\n    "

/-- Lines 212-220: the static CRA-compliance paragraph. -/
def compliance_note : String :=
  "\n    <para alignment=\"left\" fontSize=\"9\" textColor=\"#6b7280\" spaceBefore=\"12\">\n    <b>CRA Compliance:</b> This split was performed to ensure proper categorization of expenses \n    according to Canada Revenue Agency (CRA) guidelines. Each receipt maintains its connection \n    to the original transaction while allowing for accurate tax treatment based on the nature \n    of each expense. Both receipts reference the same source document for audit purposes.\n    </para>\n    "

/-- The constant part of the footer before the original receipt ID. -/
def footerHead : String :=
  "\n    <para alignment=\"center\" fontSize=\"8\" textColor=\"#9ca3af\">\n    This document was automatically generated by the Receipt Management System.<br/>\n    Original Receipt ID: "

/-- The constant part of the footer between the two truncated IDs. -/
def footerMid : String := "<br/>\n    New Receipt ID: "

/-- The constant part of the footer after the new receipt ID. -/
def footerTail : String := "\n    </para>\n    "

/-- Lines 224-231: the `footer_text` f-string, with each receipt ID truncated
to its first 16 characters and followed by an ellipsis. -/
def footer_text (original_receipt new_receipt : ReceiptRecord) : String :=
  footerHead ++ (original_receipt.id.getD "").take 16 ++ "..." ++
  footerMid ++ (new_receipt.id.getD "").take 16 ++ "..." ++ footerTail

/-- Lines 63-233: the full `story` list handed to `doc.build`, in source
order.  `nowStr` is the formatted `datetime.now()` timestamp. -/
def buildStory (original_receipt new_receipt : ReceiptRecord)
    (original_items new_items : List LineItem) (nowStr : String) : List Block :=
  [Block.paragraph "SPLIT RECEIPT DOCUMENTATION" "title",
   Block.paragraph ("Generated: " ++ nowStr) "body",
   Block.spacer 30,
   Block.paragraph purpose_text "body",
   Block.spacer 20,
   Block.paragraph "ORIGINAL RECEIPT" "heading",
   Block.table (originalInfoTable original_receipt) "info",
   Block.spacer 30,
   Block.paragraph "SPLIT INTO TWO RECEIPTS" "heading",
   Block.spacer 15]
  ++ receiptASection original_receipt original_items
  ++ receiptBSection new_receipt new_items
  ++ [Block.paragraph "SUMMARY" "heading",
      Block.table (summary_data original_receipt new_receipt) "summary",
      Block.spacer 30,
      Block.paragraph compliance_note "body",
      Block.spacer 40,
      Block.paragraph (footer_text original_receipt new_receipt) "body"]

/-- Lines 14-236: the whole generator.  The document content built and
rendered, paired with the echoed `output_path` return value (the
`doc.build` write and the `print` are I/O outside the embedding). -/
def generate_split_receipt_pdf (original_receipt new_receipt : ReceiptRecord)
    (original_items new_items : List LineItem) (output_path : String) (nowStr : String) :
    List Block × String :=
  (buildStory original_receipt new_receipt original_items new_items nowStr, output_path)

/-- The `:.2f` fraction part always has exactly two digits. -/
theorem pad2_two_digits : ∀ k, k < 100 → (pad2 k).length = 2 := by decide

/-- `strContainsSub` decides list-infix containment of the character
sequences, i.e. Python case-sensitive substring membership. -/
theorem strContainsSub_eq_true_iff (hay needle : String) :
    strContainsSub hay needle = true ↔ needle.toList <:+: hay.toList := by
  simp [strContainsSub]

/-- Number of table flowables among a list of blocks. -/
def tableCount (blocks : List Block) : Nat :=
  blocks.countP fun b =>
    match b with
    | Block.table _ _ => true
    | _ => false

/-- C1: for every `new_receipt`, the deductibility string shown in the
Receipt B label, the Receipt B tax-treatment line and the summary table is
"50%" exactly when the (possibly defaulted) category contains "Meal" as a
case-sensitive substring, and "100%" otherwise; "Meals & Entertainment"
gives 50% and lowercase "meals" gives 100%. -/
theorem C1_deductibility_rule (original_receipt new_receipt : ReceiptRecord)
    (original_items new_items : List LineItem) (nowStr : String) :
    (deductibleOf (categoryOf new_receipt) = "50%" ↔
      "Meal".toList <:+: (categoryOf new_receipt).toList) ∧
    (deductibleOf (categoryOf new_receipt) = "50%" ∨
      deductibleOf (categoryOf new_receipt) = "100%") ∧
    Block.paragraph
        ("<b>Receipt B: " ++ categoryOf new_receipt ++ " (" ++
         deductibleOf (categoryOf new_receipt) ++ " Deductible)</b>") "body"
      ∈ buildStory original_receipt new_receipt original_items new_items nowStr ∧
    Block.paragraph
        ("Tax Treatment: " ++ deductibleOf (categoryOf new_receipt) ++ " deductible (" ++
         categoryOf new_receipt ++ ")") "body"
      ∈ buildStory original_receipt new_receipt original_items new_items nowStr ∧
    (summary_data original_receipt new_receipt)[3]? =
      some ["Deductibility", "100%", deductibleOf (categoryOf new_receipt), "—"] ∧
    deductibleOf "Meals & Entertainment" = "50%" ∧
    deductibleOf "meals" = "100%" := by
  refine ⟨?_, ?_, ?_, ?_, rfl, by decide, by decide⟩
  · unfold deductibleOf strContainsSub
    by_cases h : ("Meal".toList <:+: (categoryOf new_receipt).toList)
    · simp [h]
    · simp [h]
  · unfold deductibleOf
    by_cases h : strContainsSub (categoryOf new_receipt) "Meal" <;> simp [h]
  · simp [buildStory, receiptBSection]
  · simp [buildStory, receiptBSection]

/-- C2: the summary grand total cell is the currency rendering of the exact
integer sum `original_receipt.total_cents + new_receipt.total_cents` (the
sum is taken in the integers before the division by 100, so no drift is
possible); every currency string is a `$`-prefixed decimal with exactly two
fraction digits; 1050 and 2575 cents render as $10.50, $25.75 and the grand
total as $36.25. -/
theorem C2_grand_total_exact (original_receipt new_receipt : ReceiptRecord) :
    (summary_data original_receipt new_receipt)[1]? =
      some ["Subtotal + Tax",
        money (original_receipt.total_cents.getD 0),
        money (new_receipt.total_cents.getD 0),
        money (original_receipt.total_cents.getD 0 + new_receipt.total_cents.getD 0)] ∧
    (∀ k : Int,
      money k = "$" ++ ((if k < 0 then "-" else "") ++ toString (k.natAbs / 100) ++ "." ++
        pad2 (k.natAbs % 100)) ∧
      (pad2 (k.natAbs % 100)).length = 2) ∧
    money 1050 = "$10.50" ∧ money 2575 = "$25.75" ∧ money (1050 + 2575) = "$36.25" := by
  refine ⟨rfl, fun k => ⟨rfl, pad2_two_digits _ (Nat.mod_lt _ (by norm_num))⟩,
    by decide, by decide, by decide⟩

/-- C4: the generator returns the very `output_path` it was given. -/
theorem C4_returns_output_path (original_receipt new_receipt : ReceiptRecord)
    (original_items new_items : List LineItem) (output_path nowStr : String) :
    (generate_split_receipt_pdf original_receipt new_receipt original_items new_items
      output_path nowStr).2 = output_path := rfl

/-- C5: with an empty item list, the corresponding receipt section contains
no table at all, yet still contains the bold total line whose amount is read
from the receipt record's `total_cents` (not computed from the items). -/
theorem C5_empty_items_no_table (original_receipt new_receipt : ReceiptRecord) :
    tableCount (receiptASection original_receipt []) = 0 ∧
    Block.paragraph
        ("<b>Receipt A Total: " ++ money (original_receipt.total_cents.getD 0) ++ " CAD</b>")
        "body"
      ∈ receiptASection original_receipt [] ∧
    tableCount (receiptBSection new_receipt []) = 0 ∧
    Block.paragraph
        ("<b>Receipt B Total: " ++ money (new_receipt.total_cents.getD 0) ++ " CAD</b>")
        "body"
      ∈ receiptBSection new_receipt [] ∧
    itemsTableBlocks [] "itemsA" = [] ∧ itemsTableBlocks [] "itemsB" = [] := by
  refine ⟨rfl, ?_, rfl, ?_, rfl, rfl⟩
  · simp [receiptASection, itemsTableBlocks]
  · simp [receiptBSection, itemsTableBlocks]

/-- C8: the Receipt A subsection always opens with the fixed label
"Office Supplies (100% Deductible)" whatever `original_receipt` holds, while
the Receipt B subsection opens with the label interpolated from the
defaulted category and the deductibility rule; both labels appear in the
built document. -/
theorem C8_fixed_a_label_dynamic_b_label (original_receipt new_receipt : ReceiptRecord)
    (original_items new_items : List LineItem) (nowStr : String) :
    (receiptASection original_receipt original_items).head? =
      some (Block.paragraph "<b>Receipt A: Office Supplies (100% Deductible)</b>" "body") ∧
    (receiptBSection new_receipt new_items).head? =
      some (Block.paragraph
        ("<b>Receipt B: " ++ categoryOf new_receipt ++ " (" ++
         deductibleOf (categoryOf new_receipt) ++ " Deductible)</b>") "body") ∧
    Block.paragraph "<b>Receipt A: Office Supplies (100% Deductible)</b>" "body"
      ∈ buildStory original_receipt new_receipt original_items new_items nowStr ∧
    Block.paragraph
        ("<b>Receipt B: " ++ categoryOf new_receipt ++ " (" ++
         deductibleOf (categoryOf new_receipt) ++ " Deductible)</b>") "body"
      ∈ buildStory original_receipt new_receipt original_items new_items nowStr := by
  refine ⟨rfl, rfl, ?_, ?_⟩
  · simp [buildStory, receiptASection]
  · simp [buildStory, receiptBSection]

/-- C10: an item row is a total function of the four optional keys: a
missing description renders as "", a missing quantity as "1", missing cent
amounts as "$0.00"; every row has the four columns. -/
theorem C10_item_row_defaults :
    (∀ item : LineItem, (itemRow item).length = 4) ∧
    itemRow {} = ["", "1", "$0.00", "$0.00"] ∧
    itemRow { description := some "Pen" } = ["Pen", "1", "$0.00", "$0.00"] ∧
    itemRow { quantity := some 3, total_cents := some 450 } = ["", "3", "$0.00", "$4.50"] ∧
    itemRow { unit_price_cents := some 199 } = ["", "1", "$1.99", "$0.00"] ∧
    (∀ item : LineItem, itemRow item =
      [item.description.getD "", toString (item.quantity.getD 1),
       money (item.unit_price_cents.getD 0), money (item.total_cents.getD 0)]) := by
  exact ⟨fun item => rfl, by decide, by decide, by decide, by decide, fun item => rfl⟩

/-- A receipt record whose `total_cents` key is absent. -/
def missingTotalReceipt : ReceiptRecord :=
  { id := some "orig-receipt-0001", vendor := some "Staples", receipt_date := some "2024-03-01",
    purpose_text := some "office supplies" }

/-- A complete companion receipt record. -/
def companionReceipt : ReceiptRecord :=
  { id := some "new-receipt-0002", vendor := some "Staples", receipt_date := some "2024-03-01",
    total_cents := some 1250, purpose_text := some "team lunch",
    suggested_category := some "Meals & Entertainment" }

/-- C3 counterexample: with `total_cents` absent from the original receipt,
no error surfaces — a full document is still produced, with the missing
total silently defaulted to `$0.00` by `dict.get('total_cents', 0)`, and the
generator returns the output path as on any success. -/
theorem C3_counterexample :
    missingTotalReceipt.total_cents = none ∧
    ["Original Total:", "$0.00 CAD"] ∈ originalInfoTable missingTotalReceipt ∧
    Block.paragraph "<b>Receipt A Total: $0.00 CAD</b>" "body"
      ∈ buildStory missingTotalReceipt companionReceipt [] [] "March 01, 2024 at 09:00 AM" ∧
    Block.paragraph (footer_text missingTotalReceipt companionReceipt) "body"
      ∈ buildStory missingTotalReceipt companionReceipt [] [] "March 01, 2024 at 09:00 AM" ∧
    (generate_split_receipt_pdf missingTotalReceipt companionReceipt [] [] "out.pdf"
      "March 01, 2024 at 09:00 AM").2 = "out.pdf" := by
  set_option maxRecDepth 8000 in
  refine ⟨rfl, by decide, by decide, by decide, rfl⟩

/-- C3 amended: when the `total_cents` key is absent from a receipt record
the generator does not fail; the defaults of `dict.get` substitute 0 cents,
the document renders the total as `$0.00`, and the call still returns the
output path. -/
theorem C3_missing_total_defaults_to_zero (original_receipt new_receipt : ReceiptRecord)
    (original_items new_items : List LineItem) (output_path nowStr : String)
    (h : original_receipt.total_cents = none) :
    ["Original Total:", "$0.00 CAD"] ∈ originalInfoTable original_receipt ∧
    Block.paragraph "<b>Receipt A Total: $0.00 CAD</b>" "body"
      ∈ buildStory original_receipt new_receipt original_items new_items nowStr ∧
    (generate_split_receipt_pdf original_receipt new_receipt original_items new_items
      output_path nowStr).2 = output_path := by
  have hmoney : money (original_receipt.total_cents.getD 0) = "$0.00" := by
    rw [h]; decide
  refine ⟨?_, ?_, rfl⟩
  · have hrow : ["Original Total:", "$0.00 CAD"] =
        ["Original Total:", money (original_receipt.total_cents.getD 0) ++ " CAD"] := by
      rw [hmoney]; decide
    rw [hrow]
    simp [originalInfoTable]
  · have hpar : Block.paragraph "<b>Receipt A Total: $0.00 CAD</b>" "body" =
        Block.paragraph
          ("<b>Receipt A Total: " ++ money (original_receipt.total_cents.getD 0) ++ " CAD</b>")
          "body" := by
      rw [hmoney]; decide
    rw [hpar]
    simp [buildStory, receiptASection]

/-- C3 amended, witness at a concrete record with the key absent. -/
theorem C3_missing_total_witness :
    ["Original Total:", "$0.00 CAD"] ∈ originalInfoTable {} ∧
    Block.paragraph "<b>Receipt A Total: $0.00 CAD</b>" "body"
      ∈ buildStory {} {} [] [] "now" ∧
    (generate_split_receipt_pdf {} {} [] [] "out.pdf" "now").2 = "out.pdf" :=
  C3_missing_total_defaults_to_zero {} {} [] [] "out.pdf" "now" rfl

/-- C6: in one and the same document, the original receipt's ID appears
truncated to its first 8 characters plus "..." in the ORIGINAL RECEIPT info
table, and truncated to its first 16 characters plus "..." in the footer
(the new receipt's ID likewise at 16); on an absent or empty ID both
truncations degenerate to just "...". -/
theorem C6_id_truncation (original_receipt new_receipt : ReceiptRecord)
    (original_items new_items : List LineItem) (nowStr : String) :
    Block.table (originalInfoTable original_receipt) "info"
      ∈ buildStory original_receipt new_receipt original_items new_items nowStr ∧
    ["Receipt ID:", (original_receipt.id.getD "").take 8 ++ "..."]
      ∈ originalInfoTable original_receipt ∧
    Block.paragraph (footer_text original_receipt new_receipt) "body"
      ∈ buildStory original_receipt new_receipt original_items new_items nowStr ∧
    strContainsSub (footer_text original_receipt new_receipt)
      ((original_receipt.id.getD "").take 16 ++ "...") = true ∧
    strContainsSub (footer_text original_receipt new_receipt)
      ((new_receipt.id.getD "").take 16 ++ "...") = true ∧
    ("" : String).take 8 ++ "..." = "..." ∧ ("" : String).take 16 ++ "..." = "..." := by
  refine ⟨?_, ?_, ?_, ?_, ?_, by decide, by decide⟩
  · simp [buildStory]
  · simp [originalInfoTable]
  · simp [buildStory]
  · rw [strContainsSub_eq_true_iff, footer_text]
    have hdata : (footerHead ++ (original_receipt.id.getD "").take 16 ++ "..." ++
        footerMid ++ (new_receipt.id.getD "").take 16 ++ "..." ++ footerTail).toList =
        footerHead.toList ++
        (((original_receipt.id.getD "").take 16 ++ "...").toList) ++
        (footerMid ++ (new_receipt.id.getD "").take 16 ++ "..." ++ footerTail).toList := by
      simp [String.toList, String.data_append]
    rw [hdata]
    exact List.infix_append _ _ _
  · rw [strContainsSub_eq_true_iff, footer_text]
    have hdata : (footerHead ++ (original_receipt.id.getD "").take 16 ++ "..." ++
        footerMid ++ (new_receipt.id.getD "").take 16 ++ "..." ++ footerTail).toList =
        (footerHead ++ (original_receipt.id.getD "").take 16 ++ "..." ++ footerMid).toList ++
        (((new_receipt.id.getD "").take 16 ++ "...").toList) ++
        footerTail.toList := by
      simp [String.toList, String.data_append]
    rw [hdata]
    exact List.infix_append _ _ _

/-- C7: an absent `vendor` renders as the literal "Unknown", an absent
`receipt_date` as "Not specified", and an absent `suggested_category`
defaults to "Other Expenses" everywhere the category is used — the Receipt B
label, the Receipt B tax-treatment line and both summary rows. -/
theorem C7_optional_field_defaults (original_receipt new_receipt : ReceiptRecord)
    (original_items new_items : List LineItem) (nowStr : String)
    (hv : original_receipt.vendor = none)
    (hd : original_receipt.receipt_date = none)
    (hc : new_receipt.suggested_category = none) :
    ["Vendor:", "Unknown"] ∈ originalInfoTable original_receipt ∧
    ["Date:", "Not specified"] ∈ originalInfoTable original_receipt ∧
    categoryOf new_receipt = "Other Expenses" ∧
    Block.paragraph "<b>Receipt B: Other Expenses (100% Deductible)</b>" "body"
      ∈ buildStory original_receipt new_receipt original_items new_items nowStr ∧
    Block.paragraph "Tax Treatment: 100% deductible (Other Expenses)" "body"
      ∈ buildStory original_receipt new_receipt original_items new_items nowStr ∧
    (summary_data original_receipt new_receipt)[2]? =
      some ["Tax Category", "Office Supplies", "Other Expenses", "—"] ∧
    (summary_data original_receipt new_receipt)[3]? =
      some ["Deductibility", "100%", "100%", "—"] := by
  have hcat : categoryOf new_receipt = "Other Expenses" := by
    simp [categoryOf, hc]
  have hded : deductibleOf (categoryOf new_receipt) = "100%" := by
    rw [hcat]; decide
  refine ⟨?_, ?_, hcat, ?_, ?_, ?_, ?_⟩
  · simp [originalInfoTable, hv]
  · simp [originalInfoTable, hd]
  · have hlabel : Block.paragraph "<b>Receipt B: Other Expenses (100% Deductible)</b>" "body" =
        Block.paragraph
          ("<b>Receipt B: " ++ categoryOf new_receipt ++ " (" ++
           deductibleOf (categoryOf new_receipt) ++ " Deductible)</b>") "body" := by
      rw [hcat]; decide
    rw [hlabel]
    simp [buildStory, receiptBSection]
  · have htax : Block.paragraph "Tax Treatment: 100% deductible (Other Expenses)" "body" =
        Block.paragraph
          ("Tax Treatment: " ++ deductibleOf (categoryOf new_receipt) ++ " deductible (" ++
           categoryOf new_receipt ++ ")") "body" := by
      rw [hcat]; decide
    rw [htax]
    simp [buildStory, receiptBSection]
  · simp [summary_data, hcat]
  · simp [summary_data, hded]

/-- C7, witness at records whose optional fields are all absent. -/
theorem C7_optional_field_defaults_witness :
    ["Vendor:", "Unknown"] ∈ originalInfoTable {} ∧
    ["Date:", "Not specified"] ∈ originalInfoTable {} ∧
    categoryOf {} = "Other Expenses" ∧
    Block.paragraph "<b>Receipt B: Other Expenses (100% Deductible)</b>" "body"
      ∈ buildStory {} {} [] [] "now" ∧
    Block.paragraph "Tax Treatment: 100% deductible (Other Expenses)" "body"
      ∈ buildStory {} {} [] [] "now" ∧
    (summary_data {} {})[2]? = some ["Tax Category", "Office Supplies", "Other Expenses", "—"] ∧
    (summary_data {} {})[3]? = some ["Deductibility", "100%", "100%", "—"] :=
  C7_optional_field_defaults {} {} [] [] "now" rfl rfl rfl

/-- C9: the built document is a deterministic function of the five
arguments except for the generation-timestamp paragraph, which sits at
index 1 of the story: any two runs over identical inputs agree at every
other index. -/
theorem C9_deterministic_except_timestamp (original_receipt new_receipt : ReceiptRecord)
    (original_items new_items : List LineItem) (t1 t2 : String) (i : Nat) (hi : i ≠ 1) :
    (buildStory original_receipt new_receipt original_items new_items t1)[i]? =
      (buildStory original_receipt new_receipt original_items new_items t2)[i]? ∧
    (buildStory original_receipt new_receipt original_items new_items t1)[1]? =
      some (Block.paragraph ("Generated: " ++ t1) "body") := by
  refine ⟨?_, rfl⟩
  match i, hi with
  | 0, _ => rfl
  | 1, h => exact absurd rfl h
  | (k + 2), _ => rfl

/-- C9, witness at index 0 with two different timestamps. -/
theorem C9_deterministic_witness :
    (buildStory {} {} [] [] "run one")[0]? = (buildStory {} {} [] [] "run two")[0]? ∧
    (buildStory {} {} [] [] "run one")[1]? =
      some (Block.paragraph ("Generated: " ++ "run one") "body") :=
  C9_deterministic_except_timestamp {} {} [] [] "run one" "run two" 0 (by decide)
